import Mathlib

set_option maxHeartbeats 1000000

/-!
Shallow embedding of the Course-Helper-IITK backend
(`src/api/index.js` and `src/api/middlewares/authMiddleware.js`).

The Express app is a flat router.  Each handler validates JavaScript
truthiness of required body fields, issues one call against the external
Supabase store (modelled here as a list of course rows with the unique
constraint on `code` and row selection by `id`), and maps results to an
HTTP status plus a JSON or plain-text body.  External services with no
locally-modelled state (the identity provider, the CDN, `jwt.verify`)
are abstracted as function or result parameters.
-/

/-- A JavaScript value as it may appear in a JSON request body field
(`req.body.name` etc.).  `undef` models an absent field. -/
inductive JsValue where
  | undef
  | null
  | bool (b : Bool)
  | num (n : Int)
  | str (s : String)
  deriving DecidableEq, Repr

/-- JavaScript truthiness, as used in `if (!name || !code || ...)`:
`undefined`, `null`, `false`, `0` and `""` are falsy. -/
def JsValue.truthy : JsValue → Bool
  | .undef => false
  | .null => false
  | .bool b => b
  | .num n => decide (n ≠ 0)
  | .str s => decide (s ≠ "")

/-- A course row of the external store's `courses` table
(spec section 3: id server-assigned, code unique). -/
structure Course where
  id : Nat
  name : JsValue
  code : JsValue
  description : JsValue
  credit : JsValue
  image : JsValue
  deriving DecidableEq, Repr

/-- The `courses` table of the external store. -/
abbrev Store := List Course

/-- The five course fields read from `req.body` by POST /courses and
PUT /courses/:id. -/
structure CourseBody where
  name : JsValue
  code : JsValue
  description : JsValue
  credit : JsValue
  image : JsValue
  deriving DecidableEq, Repr

/-- The guard `!name || !code || !description || !credit || !image`
from index.js lines 71 and 101. -/
def CourseBody.missingField (b : CourseBody) : Bool :=
  !b.name.truthy || !b.code.truthy || !b.description.truthy ||
    !b.credit.truthy || !b.image.truthy

/-- Server-assigned id for an inserted row (fresh: above every present id). -/
def nextId (st : Store) : Nat := (st.map Course.id).foldr max 0 + 1

/-- Result of `supabase.from("courses").insert([...]).select()`:
either the created row together with the new table state, or the
Postgres unique-key violation (error.code "23505") on `code`. -/
inductive InsertResult where
  | dupKey
  | ok (created : Course) (newStore : Store)
  deriving DecidableEq

/-- The external store's insert: fails with the duplicate-key error when a
row with the same `code` already exists, otherwise appends a row with a
server-assigned id. -/
def supabaseInsert (st : Store) (b : CourseBody) : InsertResult :=
  if st.any (fun c => decide (c.code = b.code)) then .dupKey
  else
    .ok ⟨nextId st, b.name, b.code, b.description, b.credit, b.image⟩
      (st ++ [⟨nextId st, b.name, b.code, b.description, b.credit, b.image⟩])

/-- Field replacement applied by `.update({name, code, ...}).eq("id", id)`
to the rows matching `id` (full replace of the five fields, id kept). -/
def updFn (id : Nat) (b : CourseBody) (c : Course) : Course :=
  if c.id = id then ⟨c.id, b.name, b.code, b.description, b.credit, b.image⟩ else c

/-- Result of `.update(...).eq("id", id).select()`: the selected (updated)
rows and the new table state, or the unique-key violation when an updated
row's new `code` collides with a different row's `code`. -/
inductive UpdateResult where
  | dupKey
  | ok (rows : List Course) (newStore : Store)
  deriving DecidableEq

/-- The external store's update: the unique constraint on `code` fires iff
some row matches `id` and a different row already carries the new `code`;
otherwise the matching rows are replaced and returned. -/
def supabaseUpdate (st : Store) (id : Nat) (b : CourseBody) : UpdateResult :=
  if st.any (fun c => decide (c.id = id)) &&
      st.any (fun c => decide (c.id ≠ id) && decide (c.code = b.code)) then
    .dupKey
  else
    .ok ((st.map (updFn id b)).filter (fun c => decide (c.id = id)))
      (st.map (updFn id b))

/-- `.delete().eq("id", id).select()`: the deleted rows and the new state. -/
def supabaseDelete (st : Store) (id : Nat) : List Course × Store :=
  (st.filter (fun c => decide (c.id = id)), st.filter (fun c => !decide (c.id = id)))

/-- A response body: JSON objects `{error}`, `{message}`, a course row,
`{token}`, `{imageUrl}`, or plain text sent with `res.send`. -/
inductive ResBody where
  | jsonError (error : String)
  | jsonMessage (message : String)
  | jsonCourse (c : Course)
  | jsonToken (token : String)
  | jsonImageUrl (imageUrl : String)
  | text (s : String)
  deriving DecidableEq, Repr

/-- An HTTP response: status code and body. -/
structure Response where
  status : Nat
  body : ResBody
  deriving DecidableEq, Repr

/-- The decoded JWT payload attached to `req.user` (opaque to the app). -/
structure Payload where
  user : String
  deriving DecidableEq, Repr

/-- Outcome of the `authenticateToken` middleware: an early response, or
proceeding to the route handler with the decoded payload attached. -/
inductive AuthResult where
  | reject (status : Nat) (error : String)
  | proceed (decoded : Payload)
  deriving DecidableEq, Repr

/-- JavaScript `String.prototype.split` with a one-character separator,
specialised to `" "` as in `authHeader.split(" ")` (auxiliary recursion). -/
def splitSpAux : List Char → List Char → List (List Char)
  | [], acc => [acc.reverse]
  | c :: rest, acc =>
    if c = ' ' then acc.reverse :: splitSpAux rest []
    else splitSpAux rest (c :: acc)

/-- `s.split(" ")` of JavaScript. -/
def jsSplitSpace (s : String) : List String :=
  (splitSpAux s.toList []).map (fun l => String.mk l)

/-- Falsiness of the JavaScript value held by an optional string: both an
absent value (`undefined`) and the empty string are falsy. -/
def jsStrFalsy : Option String → Bool
  | none => true
  | some s => decide (s = "")

/-- The middleware of authMiddleware.js lines 5-25.  `verify` abstracts
`jwt.verify(token, process.env.SUPABASE_JWT_SECRET)` with the process-wide
secret baked in: `none` on any verification failure (invalid or expired). -/
def authenticateToken (verify : String → Option Payload)
    (authHeader : Option String) : AuthResult :=
  if jsStrFalsy authHeader then .reject 401 "Authorization header missing"
  else
    let token := (jsSplitSpace (authHeader.getD ""))[1]?
    if jsStrFalsy token then .reject 401 "Access token required"
    else
      match verify (token.getD "") with
      | some decoded => .proceed decoded
      | none => .reject 403 "Invalid or expired token"

/-- POST /courses handler body (index.js lines 68-95), after the gate.
Third component records whether an insert call was issued to the store. -/
def postCourses (b : CourseBody) (st : Store) : Response × Store × Bool :=
  if b.missingField then
    (⟨400, .jsonError "All fields must be provided"⟩, st, false)
  else
    match supabaseInsert st b with
    | .dupKey => (⟨400, .jsonError "Course with this code already exists"⟩, st, true)
    | .ok c st' => (⟨201, .jsonCourse c⟩, st', true)

/-- PUT /courses/:id handler body (index.js lines 97-123), after the gate.
A store error other than no-rows (in particular the duplicate-key error) is
thrown and caught, producing 500: this handler has no 23505 branch. -/
def putCourse (id : Nat) (b : CourseBody) (st : Store) : Response × Store × Bool :=
  if b.missingField then
    (⟨400, .jsonError "All fields must be provided"⟩, st, false)
  else
    match supabaseUpdate st id b with
    | .dupKey => (⟨500, .jsonError "Failed to update course"⟩, st, true)
    | .ok [] st' => (⟨404, .jsonError "Course not found"⟩, st', true)
    | .ok (r :: _) st' => (⟨200, .jsonCourse r⟩, st', true)

/-- DELETE /courses/:id handler body (index.js lines 125-149), after
the gate.  Both bodies are plain text via `res.send`. -/
def deleteCourse (id : Nat) (st : Store) : Response × Store :=
  match supabaseDelete st id with
  | ([], _) => (⟨404, .text "Course not found"⟩, st)
  | (_ :: _, st') => (⟨200, .text "Course deleted successfully"⟩, st')

/-- POST /courses with its `authenticateToken` gate applied. -/
def postCoursesRoute (verify : String → Option Payload) (authHeader : Option String)
    (b : CourseBody) (st : Store) : Response × Store × Bool :=
  match authenticateToken verify authHeader with
  | .reject s e => (⟨s, .jsonError e⟩, st, false)
  | .proceed _ => postCourses b st

/-- PUT /courses/:id with its `authenticateToken` gate applied. -/
def putCourseRoute (verify : String → Option Payload) (authHeader : Option String)
    (id : Nat) (b : CourseBody) (st : Store) : Response × Store × Bool :=
  match authenticateToken verify authHeader with
  | .reject s e => (⟨s, .jsonError e⟩, st, false)
  | .proceed _ => putCourse id b st

/-- DELETE /courses/:id with its `authenticateToken` gate applied. -/
def deleteCourseRoute (verify : String → Option Payload) (authHeader : Option String)
    (id : Nat) (st : Store) : Response × Store :=
  match authenticateToken verify authHeader with
  | .reject s e => (⟨s, .jsonError e⟩, st)
  | .proceed _ => deleteCourse id st

/-- Needle is a leading segment of hay (character-level helper for
JavaScript `String.prototype.includes`). -/
def leadMatch : List Char → List Char → Bool
  | _, [] => true
  | [], _ :: _ => false
  | a :: as, b :: bs => a == b && leadMatch as bs

/-- Needle occurs (contiguously) somewhere in hay. -/
def occursIn : List Char → List Char → Bool
  | [], needle => needle.isEmpty
  | a :: rest, needle => leadMatch (a :: rest) needle || occursIn rest needle

/-- JavaScript `s.includes(sub)`, as used in `error.message.includes(...)`. -/
def strIncludes (s sub : String) : Bool := occursIn s.toList sub.toList

/-- Result of `supabase.auth.signUp({email, password})` as observed by the
/register handler: success, or an error carrying a message string. -/
inductive SignUpResult where
  | ok
  | err (message : String)
  deriving DecidableEq, Repr

/-- Result of `supabase.auth.signInWithPassword(...)` as observed by the
/login handler: success carrying `data.session.access_token`, or an error
carrying a message string. -/
inductive SignInResult where
  | ok (access_token : String)
  | err (message : String)
  deriving DecidableEq, Repr

/-- POST /register handler (index.js lines 151-173). -/
def registerHandler (r : SignUpResult) : Response :=
  match r with
  | .err m =>
    if strIncludes m "already registered" then
      ⟨400, .jsonMessage "Username already exists"⟩
    else ⟨500, .jsonMessage "Internal Server Error"⟩
  | .ok => ⟨201, .jsonMessage "User registered successfully"⟩

/-- POST /login handler (index.js lines 181-203): on success the response
token is exactly `data.session.access_token`. -/
def loginHandler (r : SignInResult) : Response :=
  match r with
  | .err m =>
    if strIncludes m "Invalid login credentials" then
      ⟨400, .jsonMessage "Invalid credentials"⟩
    else ⟨500, .jsonMessage "Internal Server Error"⟩
  | .ok tok => ⟨200, .jsonToken tok⟩

/-- POST /login seen with the process-wide signing configuration in scope:
the handler never consults the local `generateToken` helper (index.js
lines 175-179), so `sign` and `secretKey` do not occur in the body. -/
def loginRoute (_sign : Payload → String → String) (_secretKey : String)
    (r : SignInResult) : Response :=
  loginHandler r

/-- Result of `cloudinary.uploader.upload(fileStr, {folder: "courses"})`. -/
inductive CdnResult where
  | ok (secure_url : String)
  | err (message : String)
  deriving DecidableEq, Repr

/-- The multipart file received by multer: mimetype and base64 payload. -/
structure UploadedFile where
  mimetype : String
  base64Data : String
  deriving DecidableEq, Repr

/-- The data-URI string built at index.js line 37. -/
def dataUri (f : UploadedFile) : String :=
  "data:" ++ f.mimetype ++ ";base64," ++ f.base64Data

/-- POST /upload-image handler (index.js lines 35-46).  A missing file makes
`req.file.mimetype` throw, which the catch turns into the same 500. -/
def uploadImageHandler (file : Option UploadedFile)
    (cdnUpload : String → CdnResult) : Response :=
  match file with
  | none => ⟨500, .jsonError "Image upload failed"⟩
  | some f =>
    match cdnUpload (dataUri f) with
    | .ok url => ⟨200, .jsonImageUrl url⟩
    | .err _ => ⟨500, .jsonError "Image upload failed"⟩

/-- Route-level middleware (beyond the app-wide cors and JSON body parser). -/
inductive MiddlewareTag where
  | multerSingleImage
  | authGate
  deriving DecidableEq, Repr

/-- The routes registered on the app. -/
inductive RouteTag where
  | root
  | listCourses
  | createCourse
  | updateCourse
  | deleteCourseEp
  | registerEp
  | loginEp
  | uploadImageEp
  deriving DecidableEq, Repr

/-- The middleware chain each route is registered with (index.js lines
35, 48, 57, 68, 97, 125, 151, 181): `authenticateToken` guards exactly the
three mutating course routes; /upload-image has only the multer stage. -/
def routeMiddlewares : RouteTag → List MiddlewareTag
  | .uploadImageEp => [.multerSingleImage]
  | .createCourse => [.authGate]
  | .updateCourse => [.authGate]
  | .deleteCourseEp => [.authGate]
  | _ => []

/-- The unique constraint on `code` as a table invariant. -/
abbrev codesUnique (st : Store) : Prop :=
  st.Pairwise (fun a b => a.code ≠ b.code)

/-- Distinctness of the server-assigned `id` column as a table invariant. -/
abbrev idsUnique (st : Store) : Prop :=
  st.Pairwise (fun a b => a.id ≠ b.id)

/-! Concrete fixtures used by counterexamples and witnesses. -/

/-- A concrete verifier accepting exactly the token "good". -/
def vGood : String → Option Payload :=
  fun t => if t = "good" then some ⟨"u1"⟩ else none

/-- A well-formed bearer header for `vGood`. -/
def hdrGood : Option String := some "Bearer good"

/-- A body whose code collides with `courseA`. -/
def bodyA : CourseBody :=
  ⟨.str "Algorithms", .str "CS330", .str "about algorithms", .num 9, .str "http://img/a"⟩

/-- A body whose code collides with `courseB`. -/
def bodyB : CourseBody :=
  ⟨.str "Operating Systems", .str "CS331", .str "about os", .num 9, .str "http://img/b"⟩

/-- A stored course with id 1 and code "CS330". -/
def courseA : Course :=
  ⟨1, .str "Algorithms", .str "CS330", .str "d", .num 9, .str "http://img/a"⟩

/-- A stored course with id 2 and code "CS331". -/
def courseB : Course :=
  ⟨2, .str "Operating Systems", .str "CS331", .str "d", .num 9, .str "http://img/b"⟩

/-- A two-row store satisfying both uniqueness invariants. -/
def st2 : Store := [courseA, courseB]

/-- A body with a code used by no stored course of the fixtures. -/
def bodyC : CourseBody :=
  ⟨.str "Machine Learning", .str "CS771", .str "about ml", .num 9, .str "http://img/ml"⟩

/-- A stored course with id 3 and code "CS332". -/
def courseC : Course :=
  ⟨3, .str "Networks", .str "CS332", .str "d", .num 9, .str "http://img/n"⟩

/-- A three-row store satisfying both uniqueness invariants. -/
def st3 : Store := [courseA, courseB, courseC]

/-- A concrete uploaded file for the C9 witness. -/
def fPng : UploadedFile := ⟨"image/png", "QUJD"⟩

/-! Helper lemmas shared by several claim theorems. -/

/-- A pairwise "at most one satisfies p" list with a member satisfying `p`
has `countP p` exactly one. -/
lemma countP_eq_one_of_pairwise {α : Type} (p : α → Bool) (l : List α)
    (hu : l.Pairwise (fun a b => ¬(p a = true ∧ p b = true)))
    (hx : ∃ a ∈ l, p a = true) : l.countP p = 1 := by
  induction l with
  | nil => simp at hx
  | cons a t ih =>
    rw [List.pairwise_cons] at hu
    obtain ⟨ha, ht⟩ := hu
    obtain ⟨c, hc, hpc⟩ := hx
    rcases List.mem_cons.mp hc with rfl | hct
    · rw [List.countP_cons_of_pos _ _ hpc]
      have h0 : t.countP p = 0 :=
        List.countP_eq_zero.mpr (fun b hb hpb => ha b hb ⟨hpc, hpb⟩)
      omega
    · have hpa : ¬p a = true := fun hpa => ha c hct ⟨hpa, hpc⟩
      rw [List.countP_cons_of_neg _ _ hpa]
      exact ih ht ⟨c, hct, hpc⟩

/-- `updFn` never changes the id column. -/
lemma updFn_id_eq (id : Nat) (b : CourseBody) (c : Course) :
    (updFn id b c).id = c.id := by
  unfold updFn; split <;> rfl

/-- When no row matches the id, the update map is the identity on the table. -/
lemma map_updFn_id (st : Store) (id : Nat) (b : CourseBody)
    (h : ∀ c ∈ st, c.id ≠ id) : st.map (updFn id b) = st := by
  induction st with
  | nil => rfl
  | cons a t ih =>
    simp only [List.map_cons]
    rw [ih (fun c hc => h c (List.mem_cons_of_mem a hc))]
    have ha : updFn id b a = a := by
      unfold updFn; rw [if_neg (h a (List.mem_cons_self a t))]
    rw [ha]

/-- With distinct ids and a row matching the id, the rows selected after the
update are exactly the one fully-replaced row. -/
lemma filter_map_updFn (st : Store) (id : Nat) (b : CourseBody)
    (hu : idsUnique st) (c0 : Course) (hc : c0 ∈ st) (hid : c0.id = id) :
    (st.map (updFn id b)).filter (fun c => decide (c.id = id)) =
      [⟨id, b.name, b.code, b.description, b.credit, b.image⟩] := by
  induction st with
  | nil => simp at hc
  | cons a t ih =>
    obtain ⟨ha, ht⟩ := List.pairwise_cons.mp hu
    simp only [List.map_cons]
    rcases List.mem_cons.mp hc with rfl | hct
    · have hupd : updFn id b c0 = ⟨id, b.name, b.code, b.description, b.credit, b.image⟩ := by
        unfold updFn; rw [if_pos hid, hid]
      rw [hupd, List.filter_cons_of_pos (by simp)]
      have h0 : (t.map (updFn id b)).filter (fun c => decide (c.id = id)) = [] := by
        rw [List.filter_eq_nil_iff]
        intro c hcm
        obtain ⟨c', hc', rfl⟩ := List.mem_map.mp hcm
        have : c'.id ≠ id := fun h => ha c' hc' (hid.trans h.symm)
        simp [updFn_id_eq, this]
      rw [h0]
    · have haid : a.id ≠ id := fun h => ha c0 hct (h.trans hid.symm)
      have hupd : updFn id b a = a := by unfold updFn; rw [if_neg haid]
      rw [hupd, List.filter_cons_of_neg (by simp [haid])]
      exact ih ht hct

/-- A filter keeping nothing of the list leaves the list unchanged when the
dropped predicate holds nowhere. -/
lemma filter_not_id_eq_self (st : Store) (id : Nat)
    (h : ∀ c ∈ st, c.id ≠ id) :
    st.filter (fun c => !decide (c.id = id)) = st := by
  induction st with
  | nil => rfl
  | cons a t ih =>
    rw [List.filter_cons_of_pos (by simp [h a (List.mem_cons_self a t)])]
    rw [ih (fun c hc => h c (List.mem_cons_of_mem a hc))]

/-- The gated POST /courses route rejects a missing field with 400 and
issues no store call. -/
lemma postRoute_missing (verify : String → Option Payload) (hdr : Option String)
    (p : Payload) (b : CourseBody) (st : Store)
    (hauth : authenticateToken verify hdr = .proceed p)
    (hmiss : b.missingField = true) :
    postCoursesRoute verify hdr b st =
      (⟨400, .jsonError "All fields must be provided"⟩, st, false) := by
  unfold postCoursesRoute
  rw [hauth]
  unfold postCourses
  rw [hmiss]
  rfl

/-- The gated PUT /courses/:id route rejects a missing field with 400 and
issues no store call. -/
lemma putRoute_missing (verify : String → Option Payload) (hdr : Option String)
    (p : Payload) (id : Nat) (b : CourseBody) (st : Store)
    (hauth : authenticateToken verify hdr = .proceed p)
    (hmiss : b.missingField = true) :
    putCourseRoute verify hdr id b st =
      (⟨400, .jsonError "All fields must be provided"⟩, st, false) := by
  unfold putCourseRoute
  rw [hauth]
  unfold putCourse
  rw [hmiss]
  rfl

/-! Claim theorems. -/

/-- C1: counterexample — the gate never checks that the scheme word is
`Bearer`.  The header "Basic good", whose scheme is "Basic", still reaches
the route handler with the decoded payload attached, refuting "only a
request carrying a valid token under the Bearer scheme proceeds". -/
theorem C1_counterexample :
    (jsSplitSpace "Basic good")[0]? ≠ some "Bearer" ∧
    authenticateToken vGood (some "Basic good") = .proceed ⟨"u1"⟩ :=
  ⟨by decide, by decide⟩

/-- C1 (amended): `authenticateToken` guards exactly the three mutating
course routes, and behaves as follows — absent (or empty) header: 401
"Authorization header missing"; absent or empty token after the first
space: 401 "Access token required"; verification failure: 403; any request
whose second space-separated component verifies proceeds with the decoded
payload attached, regardless of the scheme word. -/
theorem C1_auth_gate (verify : String → Option Payload) (hdr : Option String) :
    (MiddlewareTag.authGate ∈ routeMiddlewares .createCourse ∧
      MiddlewareTag.authGate ∈ routeMiddlewares .updateCourse ∧
      MiddlewareTag.authGate ∈ routeMiddlewares .deleteCourseEp) ∧
    (jsStrFalsy hdr = true →
      authenticateToken verify hdr = .reject 401 "Authorization header missing") ∧
    (∀ h, hdr = some h → h ≠ "" →
      jsStrFalsy (jsSplitSpace h)[1]? = true →
      authenticateToken verify hdr = .reject 401 "Access token required") ∧
    (∀ h t, hdr = some h → h ≠ "" → (jsSplitSpace h)[1]? = some t → t ≠ "" →
      verify t = none →
      authenticateToken verify hdr = .reject 403 "Invalid or expired token") ∧
    (∀ h t p, hdr = some h → h ≠ "" → (jsSplitSpace h)[1]? = some t → t ≠ "" →
      verify t = some p →
      authenticateToken verify hdr = .proceed p) := by
  refine ⟨⟨by decide, by decide, by decide⟩, ?_, ?_, ?_, ?_⟩
  · intro hf
    simp [authenticateToken, hf]
  · intro h hh hne hft
    subst hh
    simp only [jsStrFalsy] at hft
    simp [authenticateToken, jsStrFalsy, hne, hft]
  · intro h t hh hne hts htne hv
    subst hh
    simp [authenticateToken, jsStrFalsy, hne, hts, htne, hv]
  · intro h t p hh hne hts htne hv
    subst hh
    simp [authenticateToken, jsStrFalsy, hne, hts, htne, hv]

/-- Witness for C1_auth_gate: a well-formed Bearer request with a valid
token proceeds with its decoded payload. -/
theorem C1_auth_gate_witness :
    authenticateToken vGood (some "Bearer good") = .proceed ⟨"u1"⟩ :=
  (C1_auth_gate vGood (some "Bearer good")).2.2.2.2 "Bearer good" "good" ⟨"u1"⟩
    rfl (by decide) (by decide) (by decide) (by decide)

/-- C3: a POST /courses request carrying a valid bearer token but missing
one of the five required fields gets 400, no insert call is issued to the
store, and the store is unchanged. -/
theorem C3_missing_field_rejected (verify : String → Option Payload)
    (hdr : Option String) (p : Payload) (b : CourseBody) (st : Store)
    (hauth : authenticateToken verify hdr = .proceed p)
    (hmiss : b.name = .undef ∨ b.code = .undef ∨ b.description = .undef ∨
      b.credit = .undef ∨ b.image = .undef) :
    postCoursesRoute verify hdr b st =
      (⟨400, .jsonError "All fields must be provided"⟩, st, false) := by
  apply postRoute_missing verify hdr p b st hauth
  rcases hmiss with h | h | h | h | h <;>
    simp [CourseBody.missingField, h, JsValue.truthy]

/-- Witness for C3_missing_field_rejected: code field absent. -/
theorem C3_witness :
    postCoursesRoute vGood hdrGood ⟨.str "X", .undef, .str "d", .num 5, .str "u"⟩ st2 =
      (⟨400, .jsonError "All fields must be provided"⟩, st2, false) :=
  C3_missing_field_rejected vGood hdrGood ⟨"u1"⟩ _ st2 (by decide)
    (Or.inr (Or.inl rfl))

/-- C10: the required-field guard of POST /courses and PUT /courses/:id is
JavaScript truthiness, so any falsy field value (empty string, 0, null,
false — or an absent field) is rejected with 400 and no store call is
issued; in particular no course with credit 0 can be created or set. -/
theorem C10_falsy_field_rejected (verify : String → Option Payload)
    (hdr : Option String) (p : Payload) (b : CourseBody) (st : Store) (id : Nat)
    (hauth : authenticateToken verify hdr = .proceed p)
    (hfalsy : b.name.truthy = false ∨ b.code.truthy = false ∨
      b.description.truthy = false ∨ b.credit.truthy = false ∨
      b.image.truthy = false) :
    postCoursesRoute verify hdr b st =
      (⟨400, .jsonError "All fields must be provided"⟩, st, false) ∧
    putCourseRoute verify hdr id b st =
      (⟨400, .jsonError "All fields must be provided"⟩, st, false) := by
  have hmiss : b.missingField = true := by
    rcases hfalsy with h | h | h | h | h <;> simp [CourseBody.missingField, h]
  exact ⟨postRoute_missing verify hdr p b st hauth hmiss,
    putRoute_missing verify hdr p id b st hauth hmiss⟩

/-- Witness for C10_falsy_field_rejected: credit 0 (falsy number) is
rejected by both mutating handlers although every field is present. -/
theorem C10_witness :
    (JsValue.num 0).truthy = false ∧
    postCoursesRoute vGood hdrGood ⟨.str "X", .str "CS999", .str "d", .num 0, .str "u"⟩ st2 =
      (⟨400, .jsonError "All fields must be provided"⟩, st2, false) ∧
    putCourseRoute vGood hdrGood 1 ⟨.str "X", .str "CS999", .str "d", .num 0, .str "u"⟩ st2 =
      (⟨400, .jsonError "All fields must be provided"⟩, st2, false) :=
  ⟨by decide,
    C10_falsy_field_rejected vGood hdrGood ⟨"u1"⟩ _ st2 1 (by decide)
      (Or.inr (Or.inr (Or.inr (Or.inl (by decide)))))⟩

/-- C2: counterexample — a PUT /courses/:id whose store call fails with the
duplicate unique-key violation responds 500, not 400: the PUT handler has
no 23505 branch and rethrows the store error into its catch. -/
theorem C2_counterexample :
    putCourseRoute vGood hdrGood 1 bodyB st2 =
      (⟨500, .jsonError "Failed to update course"⟩, st2, true) := by
  decide

/-- C2 (amended): only the POST /courses handler maps the duplicate
unique-key violation on `code` to 400; the PUT handler has no such branch,
so a duplicate-code update surfaces as 500. -/
theorem C2_dup_key (verify : String → Option Payload) (hdr : Option String)
    (p : Payload) (b : CourseBody) (st : Store) (id : Nat)
    (hauth : authenticateToken verify hdr = .proceed p)
    (hfields : b.missingField = false) :
    (st.any (fun c => decide (c.code = b.code)) = true →
      postCoursesRoute verify hdr b st =
        (⟨400, .jsonError "Course with this code already exists"⟩, st, true)) ∧
    (st.any (fun c => decide (c.id = id)) = true →
      st.any (fun c => decide (c.id ≠ id) && decide (c.code = b.code)) = true →
      putCourseRoute verify hdr id b st =
        (⟨500, .jsonError "Failed to update course"⟩, st, true)) := by
  constructor
  · intro hdup
    simp [postCoursesRoute, hauth, postCourses, hfields, supabaseInsert, hdup]
  · intro hany hcol
    have hex : ∃ x ∈ st, ¬x.id = id ∧ x.code = b.code := by
      rw [List.any_eq_true] at hcol
      obtain ⟨x, hx, hb⟩ := hcol
      rw [Bool.and_eq_true] at hb
      exact ⟨x, hx, of_decide_eq_true hb.1, of_decide_eq_true hb.2⟩
    simp [putCourseRoute, hauth, putCourse, hfields, supabaseUpdate, hany, hex]

/-- Witness for C2_dup_key: concrete duplicate-code create and update. -/
theorem C2_witness :
    postCoursesRoute vGood hdrGood bodyA st2 =
      (⟨400, .jsonError "Course with this code already exists"⟩, st2, true) ∧
    putCourseRoute vGood hdrGood 2 bodyA st2 =
      (⟨500, .jsonError "Failed to update course"⟩, st2, true) :=
  ⟨(C2_dup_key vGood hdrGood ⟨"u1"⟩ bodyA st2 2 (by decide) (by decide)).1 (by decide),
    (C2_dup_key vGood hdrGood ⟨"u1"⟩ bodyA st2 2 (by decide) (by decide)).2
      (by decide) (by decide)⟩

/-- C4: POST /courses with all five fields and a valid token: if a course
with the same code exists the response is 400 and the store (unchanged)
keeps exactly one record for that code; otherwise 201 with the created
record carrying the server-assigned id. -/
theorem C4_create (verify : String → Option Payload) (hdr : Option String)
    (p : Payload) (b : CourseBody) (st : Store)
    (hauth : authenticateToken verify hdr = .proceed p)
    (hfields : b.missingField = false)
    (huniq : codesUnique st) :
    ((∃ c ∈ st, c.code = b.code) →
      postCoursesRoute verify hdr b st =
        (⟨400, .jsonError "Course with this code already exists"⟩, st, true) ∧
      ((postCoursesRoute verify hdr b st).2.1).countP
        (fun c => decide (c.code = b.code)) = 1) ∧
    ((∀ c ∈ st, c.code ≠ b.code) →
      postCoursesRoute verify hdr b st =
        (⟨201, .jsonCourse ⟨nextId st, b.name, b.code, b.description, b.credit, b.image⟩⟩,
          st ++ [⟨nextId st, b.name, b.code, b.description, b.credit, b.image⟩],
          true)) := by
  constructor
  · intro hex
    have hdup : st.any (fun c => decide (c.code = b.code)) = true := by
      rw [List.any_eq_true]
      obtain ⟨c, hc, he⟩ := hex
      exact ⟨c, hc, by simp [he]⟩
    have heq : postCoursesRoute verify hdr b st =
        (⟨400, .jsonError "Course with this code already exists"⟩, st, true) := by
      simp [postCoursesRoute, hauth, postCourses, hfields, supabaseInsert, hdup]
    refine ⟨heq, ?_⟩
    rw [heq]
    apply countP_eq_one_of_pairwise _ st
    · exact huniq.imp (fun hne hxy =>
        hne ((of_decide_eq_true hxy.1).trans (of_decide_eq_true hxy.2).symm))
    · obtain ⟨c, hc, he⟩ := hex
      exact ⟨c, hc, decide_eq_true he⟩
  · intro hnone
    have hdup : st.any (fun c => decide (c.code = b.code)) = false := by
      rw [List.any_eq_false]
      intro c hc
      simp [hnone c hc]
    simp [postCoursesRoute, hauth, postCourses, hfields, supabaseInsert, hdup]

/-- Witness for C4_create: duplicate code rejected keeping one record;
fresh code created with the server-assigned id. -/
theorem C4_witness :
    (postCoursesRoute vGood hdrGood bodyA st2 =
      (⟨400, .jsonError "Course with this code already exists"⟩, st2, true) ∧
      ((postCoursesRoute vGood hdrGood bodyA st2).2.1).countP
        (fun c => decide (c.code = bodyA.code)) = 1) ∧
    postCoursesRoute vGood hdrGood bodyC st2 =
      (⟨201, .jsonCourse ⟨nextId st2, bodyC.name, bodyC.code, bodyC.description,
          bodyC.credit, bodyC.image⟩⟩,
        st2 ++ [⟨nextId st2, bodyC.name, bodyC.code, bodyC.description,
          bodyC.credit, bodyC.image⟩],
        true) :=
  ⟨(C4_create vGood hdrGood ⟨"u1"⟩ bodyA st2 (by decide) (by decide) (by decide)).1
      ⟨courseA, by decide, by decide⟩,
    (C4_create vGood hdrGood ⟨"u1"⟩ bodyC st2 (by decide) (by decide) (by decide)).2
      (by decide)⟩

/-- C5: counterexample — a PUT /courses/:id whose id matches a stored row
but whose new code belongs to a different row responds 500, not the
claimed 200 with the updated record. -/
theorem C5_counterexample :
    (∃ c ∈ st3, c.id = 3) ∧
    putCourseRoute vGood hdrGood 3 bodyA st3 =
      (⟨500, .jsonError "Failed to update course"⟩, st3, true) :=
  ⟨⟨courseC, by decide, by decide⟩, by decide⟩

/-- C5 (amended): PUT /courses/:id with all five fields and a valid token:
no row matches the id → 404 with the store unchanged; a row matches and the
new code collides with no other row → 200 with the fully-replaced record;
if the new code belongs to a different row the unique constraint fires and
the handler responds 500. -/
theorem C5_update (verify : String → Option Payload) (hdr : Option String)
    (p : Payload) (id : Nat) (b : CourseBody) (st : Store)
    (hauth : authenticateToken verify hdr = .proceed p)
    (hfields : b.missingField = false) :
    ((∀ c ∈ st, c.id ≠ id) →
      putCourseRoute verify hdr id b st =
        (⟨404, .jsonError "Course not found"⟩, st, true)) ∧
    (∀ c0 ∈ st, c0.id = id →
      (∀ c ∈ st, c.id ≠ id → c.code ≠ b.code) →
      idsUnique st →
      putCourseRoute verify hdr id b st =
        (⟨200, .jsonCourse ⟨id, b.name, b.code, b.description, b.credit, b.image⟩⟩,
          st.map (updFn id b), true)) ∧
    ((∃ c ∈ st, c.id = id) →
      (∃ c ∈ st, c.id ≠ id ∧ c.code = b.code) →
      putCourseRoute verify hdr id b st =
        (⟨500, .jsonError "Failed to update course"⟩, st, true)) := by
  refine ⟨?_, ?_, ?_⟩
  · intro h
    have hno : ¬∃ x ∈ st, x.id = id := by
      rintro ⟨x, hx, hxid⟩
      exact h x hx hxid
    have hfil : st.filter (fun c => decide (c.id = id)) = [] :=
      List.filter_eq_nil_iff.mpr (fun c hc => by simp [h c hc])
    simp [putCourseRoute, hauth, putCourse, hfields, supabaseUpdate, hno,
      map_updFn_id st id b h, hfil]
  · intro c0 hc0 hc0id hnocol huid
    have hex1 : ∃ x ∈ st, x.id = id := ⟨c0, hc0, hc0id⟩
    have hnocol' : ¬∃ x ∈ st, ¬x.id = id ∧ x.code = b.code := by
      rintro ⟨x, hx, hxid, hxcode⟩
      exact hnocol x hx hxid hxcode
    simp [putCourseRoute, hauth, putCourse, hfields, supabaseUpdate, hex1, hnocol',
      filter_map_updFn st id b huid c0 hc0 hc0id]
  · intro hex1 hex2
    simp [putCourseRoute, hauth, putCourse, hfields, supabaseUpdate, hex1, hex2]

/-- Witness for C5_update: a missing id gets 404 leaving the store alone;
an existing id with a fresh code gets 200 with the replaced record. -/
theorem C5_witness :
    putCourseRoute vGood hdrGood 99 bodyC st2 =
      (⟨404, .jsonError "Course not found"⟩, st2, true) ∧
    putCourseRoute vGood hdrGood 1 bodyC st2 =
      (⟨200, .jsonCourse ⟨1, bodyC.name, bodyC.code, bodyC.description,
          bodyC.credit, bodyC.image⟩⟩,
        st2.map (updFn 1 bodyC), true) :=
  ⟨(C5_update vGood hdrGood ⟨"u1"⟩ 99 bodyC st2 (by decide) (by decide)).1 (by decide),
    (C5_update vGood hdrGood ⟨"u1"⟩ 1 bodyC st2 (by decide) (by decide)).2.1 courseA
      (by decide) (by decide) (by decide) (by decide)⟩

/-- Splitting a table's length into kept rows and rows matching an id. -/
lemma length_split_delete (st : Store) (id : Nat) :
    st.length = (st.filter (fun c => !decide (c.id = id))).length +
      st.countP (fun c => decide (c.id = id)) := by
  induction st with
  | nil => rfl
  | cons a t ih =>
    by_cases h : a.id = id
    · rw [List.filter_cons_of_neg (by simp [h]), List.countP_cons_of_pos _ _ (by simp [h]),
        List.length_cons, ih]
      omega
    · rw [List.filter_cons_of_pos (by simp [h]), List.countP_cons_of_neg _ _ (by simp [h]),
        List.length_cons, List.length_cons, ih]
      omega

/-- C6: DELETE /courses/:id with a valid token: no row matches the id → 404
(plain text) with the store unchanged; a row matches → 200 with the
plain-text confirmation, the new store keeps exactly the rows with a
different id, and (ids being distinct) exactly one record is removed. -/
theorem C6_delete (verify : String → Option Payload) (hdr : Option String)
    (p : Payload) (id : Nat) (st : Store)
    (hauth : authenticateToken verify hdr = .proceed p) :
    ((∀ c ∈ st, c.id ≠ id) →
      deleteCourseRoute verify hdr id st = (⟨404, .text "Course not found"⟩, st)) ∧
    ((∃ c ∈ st, c.id = id) →
      deleteCourseRoute verify hdr id st =
        (⟨200, .text "Course deleted successfully"⟩,
          st.filter (fun c => !decide (c.id = id))) ∧
      (idsUnique st →
        st.length = (st.filter (fun c => !decide (c.id = id))).length + 1)) := by
  constructor
  · intro h
    have hfil : st.filter (fun c => decide (c.id = id)) = [] :=
      List.filter_eq_nil_iff.mpr (fun c hc => by simp [h c hc])
    simp [deleteCourseRoute, hauth, deleteCourse, supabaseDelete, hfil]
  · intro hex
    have hne : st.filter (fun c => decide (c.id = id)) ≠ [] := by
      obtain ⟨c, hc, hcid⟩ := hex
      exact List.ne_nil_of_mem (List.mem_filter.mpr ⟨hc, by simp [hcid]⟩)
    obtain ⟨x, xs, hxs⟩ := List.exists_cons_of_ne_nil hne
    constructor
    · simp [deleteCourseRoute, hauth, deleteCourse, supabaseDelete, hxs]
    · intro huid
      have h1 : st.countP (fun c => decide (c.id = id)) = 1 := by
        apply countP_eq_one_of_pairwise _ st
        · exact huid.imp (fun hne2 hxy =>
            hne2 ((of_decide_eq_true hxy.1).trans (of_decide_eq_true hxy.2).symm))
        · obtain ⟨c, hc, hcid⟩ := hex
          exact ⟨c, hc, decide_eq_true hcid⟩
      have h2 := length_split_delete st id
      omega

/-- Witness for C6_delete: deleting a missing id yields 404; deleting id 1
removes exactly that record and confirms in plain text. -/
theorem C6_witness :
    deleteCourseRoute vGood hdrGood 99 st2 = (⟨404, .text "Course not found"⟩, st2) ∧
    deleteCourseRoute vGood hdrGood 1 st2 =
      (⟨200, .text "Course deleted successfully"⟩,
        st2.filter (fun c => !decide (c.id = 1))) ∧
    st2.length = (st2.filter (fun c => !decide (c.id = 1))).length + 1 :=
  ⟨(C6_delete vGood hdrGood ⟨"u1"⟩ 99 st2 (by decide)).1 (by decide),
    ((C6_delete vGood hdrGood ⟨"u1"⟩ 1 st2 (by decide)).2
      ⟨courseA, by decide, by decide⟩).1,
    ((C6_delete vGood hdrGood ⟨"u1"⟩ 1 st2 (by decide)).2
      ⟨courseA, by decide, by decide⟩).2 (by decide)⟩

/-- C7: POST /login: a provider error whose message contains
"Invalid login credentials" yields 400 with message "Invalid credentials";
a provider success yields 200 whose token is exactly the provider-issued
access token (non-empty when the provider token is), and the response is
independent of the local token-signing helper and signing secret. -/
theorem C7_login (r : SignInResult) :
    (∀ m, r = .err m → strIncludes m "Invalid login credentials" = true →
      loginHandler r = ⟨400, .jsonMessage "Invalid credentials"⟩) ∧
    (∀ t, r = .ok t → t ≠ "" →
      loginHandler r = ⟨200, .jsonToken t⟩ ∧ t ≠ "" ∧
      (∀ sign sign' k k', loginRoute sign k r = loginRoute sign' k' r)) := by
  constructor
  · intro m hm hinc
    subst hm
    simp [loginHandler, hinc]
  · intro t ht htne
    subst ht
    exact ⟨rfl, htne, fun _ _ _ _ => rfl⟩

/-- Witness for C7_login: wrong password gets 400 "Invalid credentials";
a provider session token is relayed verbatim with 200. -/
theorem C7_witness :
    loginHandler (.err "Invalid login credentials") =
      ⟨400, .jsonMessage "Invalid credentials"⟩ ∧
    loginHandler (.ok "provider-access-token") =
      ⟨200, .jsonToken "provider-access-token"⟩ :=
  ⟨(C7_login (.err "Invalid login credentials")).1 "Invalid login credentials"
      rfl (by decide),
    ((C7_login (.ok "provider-access-token")).2 "provider-access-token"
      rfl (by decide)).1⟩

/-- C8: counterexample — a provider error whose message does not mention
"already registered" (for example a transport failure) yields 500, not the
claimed 201. -/
theorem C8_counterexample :
    strIncludes "fetch failed" "already registered" = false ∧
    registerHandler (.err "fetch failed") =
      ⟨500, .jsonMessage "Internal Server Error"⟩ :=
  ⟨by decide, by decide⟩

/-- C8 (amended): POST /register: a provider error mentioning
"already registered" yields 400 "Username already exists"; a provider
success yields 201 with a success message (and no token in the body);
any other provider error yields 500. -/
theorem C8_register (r : SignUpResult) :
    (∀ m, r = .err m → strIncludes m "already registered" = true →
      registerHandler r = ⟨400, .jsonMessage "Username already exists"⟩) ∧
    (r = .ok → registerHandler r = ⟨201, .jsonMessage "User registered successfully"⟩) ∧
    (∀ m, r = .err m → strIncludes m "already registered" = false →
      registerHandler r = ⟨500, .jsonMessage "Internal Server Error"⟩) := by
  refine ⟨?_, ?_, ?_⟩
  · intro m hm hinc
    subst hm
    simp [registerHandler, hinc]
  · intro h
    subst h
    rfl
  · intro m hm hinc
    subst hm
    simp [registerHandler, hinc]

/-- Witness for C8_register: an already-used username gets 400; a fresh
one gets 201. -/
theorem C8_witness :
    registerHandler (.err "User already registered") =
      ⟨400, .jsonMessage "Username already exists"⟩ ∧
    registerHandler .ok = ⟨201, .jsonMessage "User registered successfully"⟩ :=
  ⟨(C8_register (.err "User already registered")).1 "User already registered"
      rfl (by decide),
    (C8_register .ok).2.1 rfl⟩

/-- C9: POST /upload-image carries no authentication gate in its middleware
chain; a successful CDN upload returns 200 with the CDN-assigned secure
URL, and any provider failure returns the generic 500. -/
theorem C9_upload (f : UploadedFile) (cdnUpload : String → CdnResult) :
    MiddlewareTag.authGate ∉ routeMiddlewares .uploadImageEp ∧
    (∀ url, cdnUpload (dataUri f) = .ok url →
      uploadImageHandler (some f) cdnUpload = ⟨200, .jsonImageUrl url⟩) ∧
    (∀ m, cdnUpload (dataUri f) = .err m →
      uploadImageHandler (some f) cdnUpload = ⟨500, .jsonError "Image upload failed"⟩) := by
  refine ⟨by decide, ?_, ?_⟩
  · intro url h
    simp [uploadImageHandler, h]
  · intro m h
    simp [uploadImageHandler, h]

/-- Witness for C9_upload: a succeeding CDN yields 200 with its URL. -/
theorem C9_witness :
    uploadImageHandler (some fPng) (fun _ => .ok "https://cdn.example/img.png") =
      ⟨200, .jsonImageUrl "https://cdn.example/img.png"⟩ :=
  (C9_upload fPng (fun _ => .ok "https://cdn.example/img.png")).2.1
    "https://cdn.example/img.png" rfl
